import Mathlib

/-!
# URL_Status_Checker: the retry loop of `doWork` and the producer loop of `main`

Shallow embedding of `src/URL_Status_Checker.go`.

* The two library calls whose results the program branches on, `http.NewRequest`
  and `client.Do`, are not code of the program.  Their results are an input of the
  model: an `Attempt` per value of the loop counter `attempts`.
* Everything the program does that can be observed (log lines, transport calls,
  sleeps, `resp.Body.Close`, `wg.Done`, channel receives) is recorded, in program
  order, as a list of `Event`s.
* `retries` and `retrySleep` are Go `int`s and are modelled as `Int`.  The loop
  counter `attempts` never passes `retries` (every path of the body leaves the loop
  when `attempts == retries`), so `attempts++` cannot overflow.  The argument of
  `time.Sleep` is an `int64` count of nanoseconds and is modelled with wrap-around.
-/

namespace URLStatusChecker

/-! ## Data model -/

/-- Result of `client.Do(req)`: a transport error, or a response with its status code. -/
inductive DoResult where
  | error (err : String)
  | response (statusCode : Int)
  deriving DecidableEq, Repr

/-- What the two library calls of one iteration of the retry loop return:
`http.NewRequest` fails, or it succeeds and `client.Do` returns `r`. -/
inductive Attempt where
  | reqErr (err : String)
  | sent (r : DoResult)
  deriving DecidableEq, Repr

/-- Observable actions of a `doWork` goroutine. -/
inductive Event where
  /-- Receive of `urlText` from the `work` channel by `range work`. -/
  | recv (urlText : String)
  /-- The call `log.Printf("Error creating request: %v, URL: %s\n", reqErr, urlText)`. -/
  | errorCreatingRequest (err : String) (urlText : String)
  /-- The call `client.Do(req)` made while the loop counter is `attempts`. -/
  | clientDo (urlText : String) (attempts : Int)
  /-- The call `log.Printf("Request failed: %v, URL: %s\n", err, urlText)`. -/
  | requestFailed (err : String) (urlText : String)
  /-- The call `log.Printf("Response status: %d, URL: %s\n", resp.StatusCode, urlText)`. -/
  | responseStatus (statusCode : Int) (urlText : String)
  /-- The call `resp.Body.Close()`. -/
  | bodyClose (urlText : String)
  /-- The call `log.Printf("Retry %d for URL: %s\n", attempts+1, urlText)`. -/
  | retryLog (n : Int) (urlText : String)
  /-- The call `time.Sleep(d)`, with `d` in nanoseconds. -/
  | sleep (nanos : Int)
  /-- The call `wg.Done()`. -/
  | wgDone
  deriving DecidableEq, Repr

/-- Two's complement wrap-around of a 64-bit signed integer. -/
def wrapInt64 (x : Int) : Int := (x + 2 ^ 63) % 2 ^ 64 - 2 ^ 63

/-- Nanoseconds in `time.Second`. -/
def second : Int := 1000000000

/-- The value of `time.Duration(retrySleep) * time.Second`, an `int64` number of nanoseconds. -/
def sleepDuration (retrySleep : Int) : Int := wrapInt64 (retrySleep * second)

/-! ## `doWork` -/

/-- The body of `if err == nil || attempts == retries { ... break }`. -/
def finish (urlText : String) : DoResult → List Event
  | .error err => [Event.requestFailed err urlText]
  | .response statusCode =>
      List.replicate 5 (Event.responseStatus statusCode urlText) ++ [Event.bodyClose urlText]

/-- Is `err == nil`? -/
def DoResult.errIsNil : DoResult → Bool
  | .error _ => false
  | .response _ => true

/-- One iteration of the retry loop of `doWork` with the loop counter at `attempts`, where the
library calls return `x`: the events of the iteration, and whether the loop goes on to
`attempts++` (`true`) or is left by `break` (`false`). -/
def loopBody (retries retrySleep : Int) (urlText : String) (attempts : Int) :
    Attempt → List Event × Bool
  | .reqErr err => ([Event.errorCreatingRequest err urlText], false)
  | .sent r =>
      if r.errIsNil || decide (attempts = retries) then
        (Event.clientDo urlText attempts :: finish urlText r, false)
      else
        ([Event.clientDo urlText attempts, Event.retryLog (attempts + 1) urlText,
          Event.sleep (sleepDuration retrySleep)], true)

/-- The retry loop `for attempts := 0; attempts <= retries; attempts++ { ... }` of `doWork`,
started with the loop counter at `attempts`; `env a` is what the library calls return in the
iteration whose counter is `a`. -/
def retryLoop (retries retrySleep : Int) (urlText : String) (env : Int → Attempt)
    (attempts : Int) : List Event :=
  if attempts ≤ retries then
    (loopBody retries retrySleep urlText attempts (env attempts)).1 ++
      (if (loopBody retries retrySleep urlText attempts (env attempts)).2 then
        retryLoop retries retrySleep urlText env (attempts + 1)
      else [])
  else []
termination_by (retries + 1 - attempts).toNat
decreasing_by
  simp_wf
  omega

/-- The loop `for urlText := range work { ... }` of one `doWork` goroutine that receives the
items `queue`, in this order; `env i` gives the library results for the `i`-th item. -/
def rangeWork (retries retrySleep : Int) :
    List String → (Nat → Int → Attempt) → List Event
  | [], _ => []
  | urlText :: rest, env =>
      Event.recv urlText :: retryLoop retries retrySleep urlText (env 0) 0 ++
        rangeWork retries retrySleep rest (fun i => env (i + 1))

/-- One `doWork` goroutine: the `range` loop, then the deferred `wg.Done()`. -/
def doWork (retries retrySleep : Int) (queue : List String) (env : Nat → Int → Attempt) :
    List Event :=
  rangeWork retries retrySleep queue env ++ [Event.wgDone]

/-! ## Observations on a trace -/

/-- The terminal reports: the `Response status`, `Request failed` and
`Error creating request` log lines. -/
def Event.isTerminalReport : Event → Bool
  | .errorCreatingRequest _ _ => true
  | .requestFailed _ _ => true
  | .responseStatus _ _ => true
  | _ => false

/-- Is the event a call of `client.Do`? -/
def Event.isClientDo : Event → Bool
  | .clientDo _ _ => true
  | _ => false

/-- Is the event a call of `time.Sleep`? -/
def Event.isSleep : Event → Bool
  | .sleep _ => true
  | _ => false

/-- The terminal reports of a trace, in order. -/
def terminalReports (t : List Event) : List Event := t.filter Event.isTerminalReport

/-- Number of `client.Do` calls in a trace. -/
def transportCalls (t : List Event) : Nat := t.countP Event.isClientDo

/-- The `time.Sleep` calls of a trace, in order. -/
def sleeps (t : List Event) : List Event := t.filter Event.isSleep

/-- A failed attempt that is retried: the transport call, the `Retry` log line and the sleep. -/
def retryRound (retrySleep : Int) (urlText : String) (attempts : Int) : List Event :=
  [Event.clientDo urlText attempts, Event.retryLog (attempts + 1) urlText,
    Event.sleep (sleepDuration retrySleep)]

/-- The attempts `a, a+1, ..., a+k-1`, each failed and retried. -/
def retryRounds (retrySleep : Int) (urlText : String) (a : Int) : Nat → List Event
  | 0 => []
  | k + 1 => retryRound retrySleep urlText a ++ retryRounds retrySleep urlText (a + 1) k

/-- The attempts `a, a+1, ..., a+k-1`, each one a transport call, the `Retry` log line and a
`time.Sleep` of `nanos` nanoseconds. -/
def retriedAttempts (nanos : Int) (urlText : String) (a : Int) : Nat → List Event
  | 0 => []
  | k + 1 =>
      Event.clientDo urlText a :: Event.retryLog (a + 1) urlText :: Event.sleep nanos ::
        retriedAttempts nanos urlText (a + 1) k

/-- Is the event one of the retry loop (neither a channel receive nor `wg.Done`)? -/
def Event.isItemEvent : Event → Bool
  | .recv _ => false
  | .wgDone => false
  | _ => true

/-- Reading a worker trace from its end: the events before the first receive, and for every
receive the received item with the events up to the next receive or `wg.Done`. -/
def splitAtRecv : List Event → List Event × List (String × List Event)
  | [] => ([], [])
  | .recv urlText :: es => ([], (urlText, (splitAtRecv es).1) :: (splitAtRecv es).2)
  | .wgDone :: es => ([], (splitAtRecv es).2)
  | e :: es => (e :: (splitAtRecv es).1, (splitAtRecv es).2)

/-- The items a worker trace shows as received, in order, each with the events the worker
emitted for it. -/
def itemTraces (t : List Event) : List (String × List Event) := (splitAtRecv t).2

/-- The items of `queue`, each with the trace of the retry loop run on it with its own library
results. -/
def itemRuns (retries retrySleep : Int) :
    List String → (Nat → Int → Attempt) → List (String × List Event)
  | [], _ => []
  | urlText :: rest, env =>
      (urlText, retryLoop retries retrySleep urlText (env 0) 0) ::
        itemRuns retries retrySleep rest (fun i => env (i + 1))

/-! ## The producer goroutine of `main`

`bufio.Scanner` is not code of the program: the input of the model is the list of lines for
which `s.Scan()` returns `true`, in order, and the value of `s.Err()` once it returns `false`.
`url.ParseRequestURI` is a parameter: `parseRequestURI urlText` is `true` when it returns no
error.

`work` is an unbuffered channel (`make(chan string)`), so a send `work <- urlText` completes
only when a `doWork` goroutine receives it.  `main` starts one such goroutine per iteration of
`for i := 0; i < *concurrencyPtr; i++`: with `concurrency ≤ 0` there is none and the first send
blocks for ever; with `concurrency ≥ 1` the workers, whose library calls return as everywhere in
this model, come back to `range work` and receive every send.  With no worker `main` does not
wait for the producer either; the model then gives the producer's run as far as it can get.

`urlCount` is incremented once a completed send, so it does not overflow on fewer than `2 ^ 63`
lines. -/

/-- Observable actions of the producer goroutine. -/
inductive ProducerEvent where
  /-- The call `fmt.Print("Input URL: ")`. -/
  | prompt
  /-- The call `fmt.Printf("Invalid URL: %s\n", urlText)`. -/
  | invalidURL (urlText : String)
  /-- The send `work <- urlText`, completed: a worker received `urlText`. -/
  | send (urlText : String)
  /-- The send `work <- urlText` that no goroutine ever receives: the producer blocks in it for
  ever. -/
  | blockedSend (urlText : String)
  /-- The call `log.Printf("Error reading from stdin: %v\n", s.Err())`. -/
  | readError (err : String)
  /-- The call `close(work)`. -/
  | close
  deriving DecidableEq, Repr

/-- Number of `doWork` goroutines started by `for i := 0; i < *concurrencyPtr; i++ { ... }`. -/
def workersStarted (concurrency : Int) : Nat := concurrency.toNat

/-- A run of the producer's loop: its events, the value of `urlCount`, and whether the
goroutine is blocked for ever in a send instead of having left the loop. -/
structure ScanRun where
  events : List ProducerEvent
  urlCount : Nat
  blocked : Bool
  deriving DecidableEq, Repr

/-- The events `es` followed by the run `r`. -/
def ScanRun.after (es : List ProducerEvent) (r : ScanRun) : ScanRun :=
  { events := es ++ r.events, urlCount := r.urlCount, blocked := r.blocked }

/-- The loop `for { ... }` of the producer over the lines the scanner returns, started with
`urlCount`, when `main` is run with `-t concurrency`. -/
def scanLoop (concurrency : Int) (parseRequestURI : String → Bool) :
    List String → Nat → ScanRun
  | [], urlCount => { events := [ProducerEvent.prompt], urlCount := urlCount, blocked := false }
  | urlText :: more, urlCount =>
      if urlText = "" then
        ScanRun.after [ProducerEvent.prompt] (scanLoop concurrency parseRequestURI more urlCount)
      else if !parseRequestURI urlText then
        ScanRun.after [ProducerEvent.prompt, ProducerEvent.invalidURL urlText]
          (scanLoop concurrency parseRequestURI more urlCount)
      else if workersStarted concurrency = 0 then
        { events := [ProducerEvent.prompt, ProducerEvent.blockedSend urlText],
          urlCount := urlCount, blocked := true }
      else
        ScanRun.after [ProducerEvent.prompt, ProducerEvent.send urlText]
          (scanLoop concurrency parseRequestURI more (urlCount + 1))

/-- The events after the loop: the log line when `s.Err() != nil`, then `close(work)`. -/
def afterScan : Option String → List ProducerEvent
  | some err => [ProducerEvent.readError err, ProducerEvent.close]
  | none => [ProducerEvent.close]

/-- The producer goroutine, with `urlCount := 0` from `main`: its events and the final
`urlCount`.  The statements after the loop are reached only if the loop is left. -/
def producer (concurrency : Int) (parseRequestURI : String → Bool) (lines : List String)
    (scanErr : Option String) : List ProducerEvent × Nat :=
  if (scanLoop concurrency parseRequestURI lines 0).blocked then
    ((scanLoop concurrency parseRequestURI lines 0).events,
      (scanLoop concurrency parseRequestURI lines 0).urlCount)
  else
    ((scanLoop concurrency parseRequestURI lines 0).events ++ afterScan scanErr,
      (scanLoop concurrency parseRequestURI lines 0).urlCount)

/-- The strings sent on the `work` channel (completed sends), in order. -/
def sentURLs : List ProducerEvent → List String
  | [] => []
  | .send urlText :: es => urlText :: sentURLs es
  | _ :: es => sentURLs es

/-- The strings reported by an `Invalid URL` message, in order. -/
def invalidMessages : List ProducerEvent → List String
  | [] => []
  | .invalidURL urlText :: es => urlText :: invalidMessages es
  | _ :: es => invalidMessages es

/-- Number of `close(work)` calls. -/
def closes (t : List ProducerEvent) : Nat := t.count ProducerEvent.close

/-- The events of the producer for one line when every send is received: the prompt, and the
send or the message. -/
def lineEvents (parseRequestURI : String → Bool) (urlText : String) : List ProducerEvent :=
  if urlText = "" then [ProducerEvent.prompt]
  else if parseRequestURI urlText then [ProducerEvent.prompt, ProducerEvent.send urlText]
  else [ProducerEvent.prompt, ProducerEvent.invalidURL urlText]

/-! ## Unfolding the retry loop -/

theorem retryLoop_exit (retries retrySleep : Int) (urlText : String) (env : Int → Attempt)
    (a : Int) (h : retries < a) : retryLoop retries retrySleep urlText env a = [] := by
  rw [retryLoop, if_neg (by omega)]

theorem retryLoop_reqErr (retries retrySleep : Int) (urlText : String) (env : Int → Attempt)
    (a : Int) (err : String) (h : a ≤ retries) (he : env a = .reqErr err) :
    retryLoop retries retrySleep urlText env a = [Event.errorCreatingRequest err urlText] := by
  rw [retryLoop, if_pos h, he]
  simp [loopBody]

theorem retryLoop_response (retries retrySleep : Int) (urlText : String) (env : Int → Attempt)
    (a : Int) (s : Int) (h : a ≤ retries) (he : env a = .sent (.response s)) :
    retryLoop retries retrySleep urlText env a =
      Event.clientDo urlText a :: finish urlText (.response s) := by
  rw [retryLoop, if_pos h, he]
  simp [loopBody, DoResult.errIsNil]

theorem retryLoop_error_last (retries retrySleep : Int) (urlText : String)
    (env : Int → Attempt) (err : String) (he : env retries = .sent (.error err)) :
    retryLoop retries retrySleep urlText env retries =
      [Event.clientDo urlText retries, Event.requestFailed err urlText] := by
  rw [retryLoop, if_pos (le_refl _), he]
  simp [loopBody, DoResult.errIsNil, finish]

theorem retryLoop_error_retry (retries retrySleep : Int) (urlText : String)
    (env : Int → Attempt) (a : Int) (err : String) (h : a < retries)
    (he : env a = .sent (.error err)) :
    retryLoop retries retrySleep urlText env a =
      retryRound retrySleep urlText a ++ retryLoop retries retrySleep urlText env (a + 1) := by
  rw [retryLoop, if_pos (le_of_lt h), he]
  have hne : ¬ a = retries := by omega
  simp [loopBody, DoResult.errIsNil, hne, retryRound]

/-- After `k` failed attempts `a, ..., a+k-1` (all below `retries`) the loop is at `a + k`. -/
theorem retryLoop_rounds (retries retrySleep : Int) (urlText : String) (env : Int → Attempt)
    (errs : Int → String) (k : Nat) :
    ∀ a : Int, a + k ≤ retries →
      (∀ j : Int, a ≤ j → j < a + k → env j = .sent (.error (errs j))) →
      retryLoop retries retrySleep urlText env a =
        retryRounds retrySleep urlText a k ++
          retryLoop retries retrySleep urlText env (a + k) := by
  induction k with
  | zero => intro a _ _; simp [retryRounds]
  | succ k ih =>
    intro a hk hfail
    have h1 : a < retries := by push_cast at hk; omega
    rw [retryLoop_error_retry retries retrySleep urlText env a (errs a) h1
      (hfail a (le_refl _) (by push_cast; omega))]
    rw [ih (a + 1) (by push_cast at hk; omega)
      (fun j h1 h2 => hfail j (by omega) (by push_cast; omega))]
    have : a + 1 + (k : Int) = a + ((k + 1 : Nat) : Int) := by push_cast; ring
    rw [this]
    simp [retryRounds, List.append_assoc]

theorem transportCalls_append (s t : List Event) :
    transportCalls (s ++ t) = transportCalls s + transportCalls t := by
  simp [transportCalls]

theorem terminalReports_append (s t : List Event) :
    terminalReports (s ++ t) = terminalReports s ++ terminalReports t := by
  simp [terminalReports]

theorem sleeps_append (s t : List Event) : sleeps (s ++ t) = sleeps s ++ sleeps t := by
  simp [sleeps]

theorem transportCalls_retryRounds (retrySleep : Int) (urlText : String) (k : Nat) :
    ∀ a : Int, transportCalls (retryRounds retrySleep urlText a k) = k := by
  induction k with
  | zero => intro a; rfl
  | succ k ih =>
    intro a
    rw [retryRounds, transportCalls_append, ih]
    simp [transportCalls, retryRound, Event.isClientDo]
    omega

theorem terminalReports_retryRounds (retrySleep : Int) (urlText : String) (k : Nat) :
    ∀ a : Int, terminalReports (retryRounds retrySleep urlText a k) = [] := by
  induction k with
  | zero => intro a; rfl
  | succ k ih =>
    intro a
    rw [retryRounds, terminalReports_append, ih]
    simp [terminalReports, retryRound, Event.isTerminalReport]

theorem sleeps_retryRounds (retrySleep : Int) (urlText : String) (k : Nat) :
    ∀ a : Int, sleeps (retryRounds retrySleep urlText a k) =
      List.replicate k (Event.sleep (sleepDuration retrySleep)) := by
  induction k with
  | zero => intro a; rfl
  | succ k ih =>
    intro a
    rw [retryRounds, sleeps_append, ih]
    simp [sleeps, retryRound, Event.isSleep, List.replicate_succ]

theorem transportCalls_finish (urlText : String) (r : DoResult) :
    transportCalls (finish urlText r) = 0 := by
  cases r <;> simp [finish, transportCalls, Event.isClientDo, List.replicate]

theorem sleeps_finish (urlText : String) (r : DoResult) : sleeps (finish urlText r) = [] := by
  cases r <;> simp [finish, sleeps, Event.isSleep, List.replicate]

theorem terminalReports_finish_response (urlText : String) (s : Int) :
    terminalReports (finish urlText (.response s)) =
      List.replicate 5 (Event.responseStatus s urlText) := by
  simp [finish, terminalReports, Event.isTerminalReport, List.replicate]

/-- In range, the `int64` product `time.Duration(retrySleep) * time.Second` does not wrap:
the sleep lasts `retrySleep` seconds. -/
theorem sleepDuration_seconds (retrySleep : Int) (hlo : -9223372036 ≤ retrySleep)
    (hhi : retrySleep ≤ 9223372036) : sleepDuration retrySleep = retrySleep * 1000000000 := by
  unfold sleepDuration wrapInt64 second
  omega

/-! ## The claims about one item -/

theorem retryRounds_eq_retriedAttempts (retrySleep : Int) (urlText : String) (k : Nat) :
    ∀ a : Int, retryRounds retrySleep urlText a k =
      retriedAttempts (sleepDuration retrySleep) urlText a k := by
  induction k with
  | zero => intro a; rfl
  | succ k ih => intro a; simp [retryRounds, retriedAttempts, retryRound, ih]

/-- The retry loop when `retries ≥ 0` and every `client.Do` returns an error, with the sleep
as the program computes it, `time.Duration(retrySleep) * time.Second` on `int64`. -/
theorem retryLoop_all_fail (retries retrySleep : Int) (urlText : String) (env : Int → Attempt)
    (errs : Int → String) (hr : 0 ≤ retries)
    (hfail : ∀ j : Int, 0 ≤ j → j ≤ retries → env j = .sent (.error (errs j))) :
    retryLoop retries retrySleep urlText env 0 =
        retriedAttempts (sleepDuration retrySleep) urlText 0 retries.toNat ++
          [Event.clientDo urlText retries, Event.requestFailed (errs retries) urlText] ∧
      (transportCalls (retryLoop retries retrySleep urlText env 0) : Int) = retries + 1 ∧
      terminalReports (retryLoop retries retrySleep urlText env 0) =
        [Event.requestFailed (errs retries) urlText] ∧
      sleeps (retryLoop retries retrySleep urlText env 0) =
        List.replicate retries.toNat (Event.sleep (sleepDuration retrySleep)) := by
  have hk : (0 : Int) + (retries.toNat : Int) = retries := by
    rw [Int.toNat_of_nonneg hr]; ring
  have h := retryLoop_rounds retries retrySleep urlText env errs retries.toNat 0
    (by rw [hk]) (fun j h1 h2 => hfail j h1 (by rw [hk] at h2; omega))
  rw [hk, retryLoop_error_last retries retrySleep urlText env (errs retries)
    (hfail retries hr (le_refl _))] at h
  rw [h]
  refine ⟨by rw [retryRounds_eq_retriedAttempts], ?_, ?_, ?_⟩
  · rw [transportCalls_append, transportCalls_retryRounds]
    simp [transportCalls, Event.isClientDo]
    omega
  · rw [terminalReports_append, terminalReports_retryRounds]
    simp [terminalReports, Event.isTerminalReport]
  · rw [sleeps_append, sleeps_retryRounds]
    simp [sleeps, Event.isSleep]

/-- C1, as the claim states it, fails on the duration of the sleeps.  `-retry-sleep 9223372037`
is accepted by the flag (a 64-bit `int`), and `time.Duration(9223372037) * time.Second`
wraps around on `int64` to -9223372036709551616 ns: with `retries = 1` the one sleep is a
`time.Sleep` of a negative duration, which returns at once, not a sleep of 9223372037 seconds.
In the same way `-retry-sleep -9223372037` gives a sleep of 9223372036709551616 ns. -/
theorem retry_sleep_counterexample :
    (sleeps (retryLoop 1 9223372037 "https://dead.example"
        (fun _ => .sent (.error "no such host")) 0) =
        [Event.sleep (-9223372036709551616)] ∧
      sleeps (retryLoop 1 9223372037 "https://dead.example"
        (fun _ => .sent (.error "no such host")) 0) ≠
        [Event.sleep (9223372037 * 1000000000)]) ∧
    (sleeps (retryLoop 1 (-9223372037) "https://dead.example"
        (fun _ => .sent (.error "no such host")) 0) =
        [Event.sleep 9223372036709551616] ∧
      sleeps (retryLoop 1 (-9223372037) "https://dead.example"
        (fun _ => .sent (.error "no such host")) 0) ≠
        [Event.sleep (-9223372037 * 1000000000)]) := by
  rw [(retryLoop_all_fail 1 9223372037 "https://dead.example"
      (fun _ => .sent (.error "no such host")) (fun _ => "no such host") (by decide)
      (fun _ _ _ => rfl)).2.2.2,
    (retryLoop_all_fail 1 (-9223372037) "https://dead.example"
      (fun _ => .sent (.error "no such host")) (fun _ => "no such host") (by decide)
      (fun _ _ _ => rfl)).2.2.2]
  decide

/-- C1 (retry bound, P2), amended with the range of `retrySleep` in which the `int64` count of
nanoseconds `time.Duration(retrySleep) * time.Second` does not wrap around: when
`retries ≥ 0`, `-9223372036 ≤ retrySleep ≤ 9223372036`, every request is constructed and every
`client.Do` returns an error, the retry loop is exactly `retries` rounds of (transport call,
`Retry` log line, `time.Sleep` of `retrySleep` seconds, that is `retrySleep * 1000000000`
nanoseconds) followed by one last transport call and the `Request failed` report.  So it makes
`retries + 1` transport calls, its only terminal report is the one `Request failed` line, and
it sleeps `retries` times, each time for `retrySleep` seconds, between two attempts and not
after the last. -/
theorem retry_bound (retries retrySleep : Int) (urlText : String) (env : Int → Attempt)
    (errs : Int → String) (hr : 0 ≤ retries)
    (hfail : ∀ j : Int, 0 ≤ j → j ≤ retries → env j = .sent (.error (errs j)))
    (hlo : -9223372036 ≤ retrySleep) (hhi : retrySleep ≤ 9223372036) :
    retryLoop retries retrySleep urlText env 0 =
        retriedAttempts (retrySleep * 1000000000) urlText 0 retries.toNat ++
          [Event.clientDo urlText retries, Event.requestFailed (errs retries) urlText] ∧
      (transportCalls (retryLoop retries retrySleep urlText env 0) : Int) = retries + 1 ∧
      terminalReports (retryLoop retries retrySleep urlText env 0) =
        [Event.requestFailed (errs retries) urlText] ∧
      sleeps (retryLoop retries retrySleep urlText env 0) =
        List.replicate retries.toNat (Event.sleep (retrySleep * 1000000000)) := by
  have h := retryLoop_all_fail retries retrySleep urlText env errs hr hfail
  rw [sleepDuration_seconds retrySleep hlo hhi] at h
  exact h

/-- Witness of C1 amended: `retries = 2`, `retrySleep = 3`, `https://dead.example` always
fails: three transport calls (attempts 0, 1, 2), two sleeps of 3000000000 ns, one
`Request failed` report. -/
theorem retry_bound_witness :
    ((0 : Int) ≤ 2 ∧ (-9223372036 : Int) ≤ 3 ∧ (3 : Int) ≤ 9223372036) ∧
      retryLoop 2 3 "https://dead.example" (fun _ => .sent (.error "no such host")) 0 =
        [Event.clientDo "https://dead.example" 0, Event.retryLog 1 "https://dead.example",
          Event.sleep 3000000000,
          Event.clientDo "https://dead.example" 1, Event.retryLog 2 "https://dead.example",
          Event.sleep 3000000000,
          Event.clientDo "https://dead.example" 2,
          Event.requestFailed "no such host" "https://dead.example"] ∧
      (transportCalls
        (retryLoop 2 3 "https://dead.example" (fun _ => .sent (.error "no such host")) 0) : Int)
        = 3 ∧
      terminalReports
        (retryLoop 2 3 "https://dead.example" (fun _ => .sent (.error "no such host")) 0) =
        [Event.requestFailed "no such host" "https://dead.example"] ∧
      sleeps (retryLoop 2 3 "https://dead.example" (fun _ => .sent (.error "no such host")) 0) =
        [Event.sleep 3000000000, Event.sleep 3000000000] :=
  ⟨by decide,
    retry_bound 2 3 "https://dead.example" (fun _ => .sent (.error "no such host"))
      (fun _ => "no such host") (by decide) (fun _ _ _ => rfl) (by decide) (by decide)⟩

/-- C2 (success short-circuit, P3): when the attempts `0, ..., k-1` fail at the transport and
attempt `k ≤ retries` returns a response with status `s`, the retry loop is `k` retried rounds,
then the transport call of attempt `k`, the `Response status: s` line (printed five times) and
`resp.Body.Close()`, and nothing after.  So it makes `k + 1` transport calls, and every terminal
report is a status report carrying the status code of attempt `k`: no failure is reported. -/
theorem success_short_circuit (retries retrySleep : Int) (urlText : String)
    (env : Int → Attempt) (errs : Int → String) (k : Nat) (s : Int) (hk : (k : Int) ≤ retries)
    (hfail : ∀ j : Int, 0 ≤ j → j < k → env j = .sent (.error (errs j)))
    (hok : env k = .sent (.response s)) :
    retryLoop retries retrySleep urlText env 0 =
        retryRounds retrySleep urlText 0 k ++
          (Event.clientDo urlText k ::
            (List.replicate 5 (Event.responseStatus s urlText) ++ [Event.bodyClose urlText])) ∧
      transportCalls (retryLoop retries retrySleep urlText env 0) = k + 1 ∧
      terminalReports (retryLoop retries retrySleep urlText env 0) =
        List.replicate 5 (Event.responseStatus s urlText) ∧
      sleeps (retryLoop retries retrySleep urlText env 0) =
        List.replicate k (Event.sleep (sleepDuration retrySleep)) := by
  have h := retryLoop_rounds retries retrySleep urlText env errs k 0 (by omega)
    (fun j h1 h2 => hfail j h1 (by omega))
  rw [zero_add, retryLoop_response retries retrySleep urlText env k s hk hok] at h
  rw [h]
  refine ⟨rfl, ?_, ?_, ?_⟩
  · rw [transportCalls_append, transportCalls_retryRounds]
    simp [transportCalls, Event.isClientDo, finish, List.replicate]
  · rw [terminalReports_append, terminalReports_retryRounds]
    simp [terminalReports, Event.isTerminalReport, finish, List.replicate]
  · rw [sleeps_append, sleeps_retryRounds]
    simp [sleeps, Event.isSleep, finish, List.replicate]

/-- Witness of C2: `retries = 2`, `https://flaky.example` fails twice and then answers 200:
three transport calls, and the report is status 200. -/
theorem success_short_circuit_witness :
    ((2 : Nat) : Int) ≤ 2 ∧
      transportCalls (retryLoop 2 0 "https://flaky.example"
        (fun a => if a < 2 then .sent (.error "timeout") else .sent (.response 200)) 0) = 3 ∧
      terminalReports (retryLoop 2 0 "https://flaky.example"
        (fun a => if a < 2 then .sent (.error "timeout") else .sent (.response 200)) 0) =
        List.replicate 5 (Event.responseStatus 200 "https://flaky.example") :=
  ⟨by decide,
    (success_short_circuit 2 0 "https://flaky.example"
      (fun a => if a < 2 then .sent (.error "timeout") else .sent (.response 200))
      (fun _ => "timeout") 2 200 (by decide) (fun _ _ h => if_pos h) rfl).2.1,
    (success_short_circuit 2 0 "https://flaky.example"
      (fun a => if a < 2 then .sent (.error "timeout") else .sent (.response 200))
      (fun _ => "timeout") 2 200 (by decide) (fun _ _ h => if_pos h) rfl).2.2.1⟩

/-- C4 (status-code transparency, P4): in an iteration whose `client.Do` returns a response
with status `s` and no error, whatever `s` is, the loop is left (`break`) after the transport
call, the `Response status: s` line (five times) and `resp.Body.Close()`: status `s` is what is
reported, there is no failure report, no further transport call and no sleep.  Whether the loop
goes on to another attempt is decided by `err == nil` and `attempts == retries` alone. -/
theorem status_code_transparency (retries retrySleep : Int) (urlText : String)
    (env : Int → Attempt) (a s : Int) (ha : a ≤ retries) (hok : env a = .sent (.response s)) :
    loopBody retries retrySleep urlText a (env a) =
        (Event.clientDo urlText a ::
          (List.replicate 5 (Event.responseStatus s urlText) ++ [Event.bodyClose urlText]),
          false) ∧
      retryLoop retries retrySleep urlText env a =
        Event.clientDo urlText a ::
          (List.replicate 5 (Event.responseStatus s urlText) ++ [Event.bodyClose urlText]) ∧
      terminalReports (retryLoop retries retrySleep urlText env a) =
        List.replicate 5 (Event.responseStatus s urlText) ∧
      transportCalls (retryLoop retries retrySleep urlText env a) = 1 ∧
      sleeps (retryLoop retries retrySleep urlText env a) = [] ∧
      (∀ r : DoResult, (loopBody retries retrySleep urlText a (.sent r)).2 =
        (!r.errIsNil && !decide (a = retries))) := by
  rw [retryLoop_response retries retrySleep urlText env a s ha hok, hok]
  refine ⟨by simp [loopBody, DoResult.errIsNil, finish], rfl, ?_, ?_, ?_, ?_⟩
  · simp [terminalReports, Event.isTerminalReport, finish, List.replicate]
  · simp [transportCalls, Event.isClientDo, finish, List.replicate]
  · simp [sleeps, Event.isSleep, finish, List.replicate]
  · intro r
    cases r <;> by_cases h : a = retries <;> simp [loopBody, DoResult.errIsNil, h]

/-- Witness of C4: a 404 answer on the first attempt, with three retries left, is reported as
status 404 after one transport call. -/
theorem status_code_transparency_witness :
    (0 : Int) ≤ 3 ∧
      retryLoop 3 1 "https://gone.example" (fun _ => .sent (.response 404)) 0 =
        [Event.clientDo "https://gone.example" 0,
          Event.responseStatus 404 "https://gone.example",
          Event.responseStatus 404 "https://gone.example",
          Event.responseStatus 404 "https://gone.example",
          Event.responseStatus 404 "https://gone.example",
          Event.responseStatus 404 "https://gone.example",
          Event.bodyClose "https://gone.example"] :=
  ⟨by decide,
    (status_code_transparency 3 1 "https://gone.example" (fun _ => .sent (.response 404)) 0 404
      (by decide) rfl).2.1⟩

/-! ## The retry loop for arbitrary library results -/

theorem retryLoop_step (retries retrySleep : Int) (urlText : String) (env : Int → Attempt)
    (a : Int) (h : a ≤ retries) :
    retryLoop retries retrySleep urlText env a =
      (loopBody retries retrySleep urlText a (env a)).1 ++
        (if (loopBody retries retrySleep urlText a (env a)).2 then
          retryLoop retries retrySleep urlText env (a + 1)
        else []) := by
  rw [retryLoop, if_pos h]

/-- Induction on the number of iterations the loop has left. -/
theorem retryLoop_induction (retries : Int) (P : Int → Prop)
    (hexit : ∀ a, retries < a → P a)
    (hstep : ∀ a, a ≤ retries → P (a + 1) → P a) : ∀ a, P a := by
  have key : ∀ k : Nat, ∀ a : Int, (retries + 1 - a).toNat = k → P a := by
    intro k
    induction k with
    | zero => intro a h; exact hexit a (by omega)
    | succ k ih => intro a h; exact hstep a (by omega) (ih (a + 1) (by omega))
  intro a
  exact key _ a rfl

/-- The terminal reports of a retry loop that runs at least one iteration: five copies of one
status report, or one `Request failed` report, or one `Error creating request` report. -/
theorem terminalReports_retryLoop (retries retrySleep : Int) (urlText : String)
    (env : Int → Attempt) :
    ∀ a, a ≤ retries →
      (∃ s, terminalReports (retryLoop retries retrySleep urlText env a) =
        List.replicate 5 (Event.responseStatus s urlText)) ∨
      (∃ err, terminalReports (retryLoop retries retrySleep urlText env a) =
        [Event.requestFailed err urlText]) ∨
      (∃ err, terminalReports (retryLoop retries retrySleep urlText env a) =
        [Event.errorCreatingRequest err urlText]) := by
  apply retryLoop_induction retries
  · intro a h1 h2; omega
  · intro a ha ih _
    cases hx : env a with
    | reqErr err =>
      rw [retryLoop_reqErr retries retrySleep urlText env a err ha hx]
      exact Or.inr (Or.inr ⟨err, rfl⟩)
    | sent r =>
      cases r with
      | response s =>
        rw [retryLoop_response retries retrySleep urlText env a s ha hx]
        exact Or.inl ⟨s, by simp [terminalReports, Event.isTerminalReport, finish,
          List.replicate]⟩
      | error err =>
        by_cases hlast : a = retries
        · subst hlast
          rw [retryLoop_error_last a retrySleep urlText env err hx]
          exact Or.inr (Or.inl ⟨err, rfl⟩)
        · have hlt : a < retries := by omega
          rw [retryLoop_error_retry retries retrySleep urlText env a err hlt hx,
            terminalReports_append]
          have : terminalReports (retryRound retrySleep urlText a) = [] := rfl
          rw [this, List.nil_append]
          exact ih (by omega)

theorem terminalReports_retryLoop_ne_nil (retries retrySleep : Int) (urlText : String)
    (env : Int → Attempt) (hr : 0 ≤ retries) :
    terminalReports (retryLoop retries retrySleep urlText env 0) ≠ [] := by
  rcases terminalReports_retryLoop retries retrySleep urlText env 0 hr with
    ⟨s, h⟩ | ⟨e, h⟩ | ⟨e, h⟩ <;> rw [h] <;> simp [List.replicate]

theorem isItemEvent_loopBody (retries retrySleep : Int) (urlText : String) (a : Int)
    (x : Attempt) :
    ∀ e ∈ (loopBody retries retrySleep urlText a x).1, e.isItemEvent = true := by
  cases x with
  | reqErr err => simp [loopBody, Event.isItemEvent]
  | sent r =>
    cases r <;> by_cases h : a = retries <;>
      simp [loopBody, DoResult.errIsNil, h, finish, Event.isItemEvent, List.replicate]

theorem isItemEvent_retryLoop (retries retrySleep : Int) (urlText : String)
    (env : Int → Attempt) :
    ∀ a, ∀ e ∈ retryLoop retries retrySleep urlText env a, e.isItemEvent = true := by
  apply retryLoop_induction retries
  · intro a h e he
    rw [retryLoop_exit retries retrySleep urlText env a h] at he
    simp at he
  · intro a ha ih e he
    rw [retryLoop_step retries retrySleep urlText env a ha, List.mem_append] at he
    rcases he with he | he
    · exact isItemEvent_loopBody retries retrySleep urlText a (env a) e he
    · split at he
      · exact ih e he
      · simp at he

/-- The retry loop reads the library results of the attempts `a, ..., retries` only. -/
theorem retryLoop_congr (retries retrySleep : Int) (urlText : String)
    (env env' : Int → Attempt) :
    ∀ a, (∀ j, a ≤ j → j ≤ retries → env j = env' j) →
      retryLoop retries retrySleep urlText env a =
        retryLoop retries retrySleep urlText env' a := by
  apply retryLoop_induction retries
  · intro a h _
    rw [retryLoop_exit retries retrySleep urlText env a h,
      retryLoop_exit retries retrySleep urlText env' a h]
  · intro a ha ih hagree
    rw [retryLoop_step retries retrySleep urlText env a ha,
      retryLoop_step retries retrySleep urlText env' a ha, hagree a (le_refl _) ha,
      ih (fun j h1 h2 => hagree j (by omega) h2)]

/-! ## The `range` loop of a worker -/

theorem rangeWork_append (retries retrySleep : Int) (q₁ q₂ : List String) :
    ∀ env : Nat → Int → Attempt,
      rangeWork retries retrySleep (q₁ ++ q₂) env =
        rangeWork retries retrySleep q₁ env ++
          rangeWork retries retrySleep q₂ (fun i => env (q₁.length + i)) := by
  induction q₁ with
  | nil => intro env; simp [rangeWork]
  | cons u rest ih =>
    intro env
    have hshift : (fun i => env (rest.length + i + 1)) =
        (fun i => env (rest.length + 1 + i)) := by
      funext i
      rw [Nat.add_right_comm]
    simp [rangeWork, ih, List.append_assoc, hshift]

theorem splitAtRecv_append (seg rest : List Event)
    (hseg : ∀ e ∈ seg, e.isItemEvent = true) :
    splitAtRecv (seg ++ rest) = (seg ++ (splitAtRecv rest).1, (splitAtRecv rest).2) := by
  induction seg with
  | nil => simp
  | cons e es ih =>
    have he := hseg e (List.mem_cons_self _ _)
    have hes := ih (fun x hx => hseg x (List.mem_cons_of_mem _ hx))
    cases e <;> simp_all [splitAtRecv, Event.isItemEvent]

theorem splitAtRecv_rangeWork (retries retrySleep : Int) (queue : List String) :
    ∀ env : Nat → Int → Attempt,
      splitAtRecv (rangeWork retries retrySleep queue env ++ [Event.wgDone]) =
        ([], itemRuns retries retrySleep queue env) := by
  induction queue with
  | nil => intro env; simp [rangeWork, splitAtRecv, itemRuns]
  | cons u rest ih =>
    intro env
    have h := splitAtRecv_append (retryLoop retries retrySleep u (env 0) 0)
      (rangeWork retries retrySleep rest (fun i => env (i + 1)) ++ [Event.wgDone])
      (isItemEvent_retryLoop retries retrySleep u (env 0) 0)
    rw [ih] at h
    have hcons : rangeWork retries retrySleep (u :: rest) env ++ [Event.wgDone] =
        Event.recv u :: (retryLoop retries retrySleep u (env 0) 0 ++
          (rangeWork retries retrySleep rest (fun i => env (i + 1)) ++ [Event.wgDone])) := by
      simp [rangeWork]
    rw [hcons, splitAtRecv, h, itemRuns]
    simp

theorem itemTraces_doWork (retries retrySleep : Int) (queue : List String)
    (env : Nat → Int → Attempt) :
    itemTraces (doWork retries retrySleep queue env) =
      itemRuns retries retrySleep queue env := by
  simp [itemTraces, doWork, splitAtRecv_rangeWork]

/-- One worker calls `wg.Done` once, as its last action, after the `range` loop. -/
theorem doWork_wgDone (retries retrySleep : Int) (queue : List String)
    (env : Nat → Int → Attempt) :
    (doWork retries retrySleep queue env).count Event.wgDone = 1 ∧
      (doWork retries retrySleep queue env).getLast? = some Event.wgDone := by
  have hnone : ∀ (q : List String) (env : Nat → Int → Attempt),
      (rangeWork retries retrySleep q env).count Event.wgDone = 0 := by
    intro q
    induction q with
    | nil => intro env; rfl
    | cons u rest ih =>
      intro env
      have hloop : (retryLoop retries retrySleep u (env 0) 0).count Event.wgDone = 0 := by
        rw [List.count_eq_zero]
        intro hmem
        have := isItemEvent_retryLoop retries retrySleep u (env 0) 0 _ hmem
        simp [Event.isItemEvent] at this
      simp [rangeWork, List.count_cons, hloop, ih]
  simp [doWork, hnone]

theorem itemRuns_map_fst (retries retrySleep : Int) (queue : List String) :
    ∀ env : Nat → Int → Attempt,
      (itemRuns retries retrySleep queue env).map Prod.fst = queue := by
  induction queue with
  | nil => intro env; rfl
  | cons u rest ih => intro env; simp [itemRuns, ih]

theorem itemRuns_getElem? (retries retrySleep : Int) (queue : List String) :
    ∀ (env : Nat → Int → Attempt) (i : Nat) (h : i < queue.length),
      (itemRuns retries retrySleep queue env)[i]? =
        some (queue[i], retryLoop retries retrySleep queue[i] (env i) 0) := by
  induction queue with
  | nil => intro env i h; simp at h
  | cons u rest ih =>
    intro env i h
    cases i with
    | zero => simp [itemRuns]
    | succ i =>
      simp only [itemRuns, List.getElem?_cons_succ, List.getElem_cons_succ]
      exact ih (fun i => env (i + 1)) i (by simpa using h)

theorem itemRuns_terminal (retries retrySleep : Int) (hr : 0 ≤ retries)
    (queue : List String) :
    ∀ (env : Nat → Int → Attempt), ∀ seg ∈ itemRuns retries retrySleep queue env,
      terminalReports seg.2 ≠ [] := by
  induction queue with
  | nil => intro env seg h; simp [itemRuns] at h
  | cons u rest ih =>
    intro env seg h
    simp only [itemRuns, List.mem_cons] at h
    rcases h with h | h
    · rw [h]
      exact terminalReports_retryLoop_ne_nil retries retrySleep u (env 0) hr
    · exact ih _ seg h

/-! ## The claims about terminal reports and the worker -/

/-- C3, as the claim states it, fails, in two ways.  With `retries = 0` and a transport that
answers 200, the retry loop emits five terminal reports (the `Response status` line five
times), not one.  With `retries = -1`, a value the `-retry` flag accepts, the loop runs no
iteration and emits no terminal report. -/
theorem one_terminal_report_counterexample :
    (terminalReports
        (retryLoop 0 1 "https://ok.example" (fun _ => .sent (.response 200)) 0) =
        List.replicate 5 (Event.responseStatus 200 "https://ok.example") ∧
      (terminalReports
        (retryLoop 0 1 "https://ok.example" (fun _ => .sent (.response 200)) 0)).length ≠ 1) ∧
    (terminalReports
        (retryLoop (-1) 1 "https://ok.example" (fun _ => .sent (.response 200)) 0) = [] ∧
      (terminalReports
        (retryLoop (-1) 1 "https://ok.example" (fun _ => .sent (.response 200)) 0)).length ≠ 1) := by
  rw [retryLoop_response 0 1 "https://ok.example" (fun _ => .sent (.response 200)) 0 200
    (le_refl _) rfl,
    retryLoop_exit (-1) 1 "https://ok.example" (fun _ => .sent (.response 200)) 0 (by decide)]
  decide

/-- C3, amended: when `retries ≥ 0`, whatever the library calls return, the terminal reports of
the retry loop for one URL are of one kind: the `Response status` line of one status code,
five times, or exactly one `Request failed` line, or exactly one `Error creating request`
line. -/
theorem terminal_reports_one_kind (retries retrySleep : Int) (urlText : String)
    (env : Int → Attempt) (hr : 0 ≤ retries) :
    (∃ s, terminalReports (retryLoop retries retrySleep urlText env 0) =
      List.replicate 5 (Event.responseStatus s urlText)) ∨
    (∃ err, terminalReports (retryLoop retries retrySleep urlText env 0) =
      [Event.requestFailed err urlText]) ∨
    (∃ err, terminalReports (retryLoop retries retrySleep urlText env 0) =
      [Event.errorCreatingRequest err urlText]) :=
  terminalReports_retryLoop retries retrySleep urlText env 0 hr

/-- Witness of C3 amended: `retries = 1`, a transport error and then a request that cannot be
constructed. -/
theorem terminal_reports_one_kind_witness :
    (0 : Int) ≤ 1 ∧
      ((∃ s, terminalReports (retryLoop 1 1 "https://a.example"
          (fun a => if a = 0 then .sent (.error "reset") else .reqErr "bad request") 0) =
        List.replicate 5 (Event.responseStatus s "https://a.example")) ∨
      (∃ err, terminalReports (retryLoop 1 1 "https://a.example"
          (fun a => if a = 0 then .sent (.error "reset") else .reqErr "bad request") 0) =
        [Event.requestFailed err "https://a.example"]) ∨
      (∃ err, terminalReports (retryLoop 1 1 "https://a.example"
          (fun a => if a = 0 then .sent (.error "reset") else .reqErr "bad request") 0) =
        [Event.errorCreatingRequest err "https://a.example"])) :=
  ⟨by decide, terminal_reports_one_kind 1 1 "https://a.example"
    (fun a => if a = 0 then .sent (.error "reset") else .reqErr "bad request") (by decide)⟩

/-- C5: when `retries ≥ 0` and `http.NewRequest` fails on the first attempt for the item
`urlText` of the queue, the retry loop for that item is the one `Error creating request` report:
no transport call, no sleep, no other report.  The worker then goes on with the rest of the
queue, and signals `wg.Done` only after it. -/
theorem request_construction_failure (retries retrySleep : Int) (before rest : List String)
    (urlText err : String) (env : Nat → Int → Attempt) (hr : 0 ≤ retries)
    (hreq : env before.length 0 = .reqErr err) :
    retryLoop retries retrySleep urlText (env before.length) 0 =
        [Event.errorCreatingRequest err urlText] ∧
      transportCalls (retryLoop retries retrySleep urlText (env before.length) 0) = 0 ∧
      sleeps (retryLoop retries retrySleep urlText (env before.length) 0) = [] ∧
      terminalReports (retryLoop retries retrySleep urlText (env before.length) 0) =
        [Event.errorCreatingRequest err urlText] ∧
      doWork retries retrySleep (before ++ urlText :: rest) env =
        rangeWork retries retrySleep before env ++
          (Event.recv urlText :: Event.errorCreatingRequest err urlText ::
            rangeWork retries retrySleep rest (fun i => env (before.length + 1 + i))) ++
          [Event.wgDone] := by
  have h := retryLoop_reqErr retries retrySleep urlText (env before.length) 0 err hr hreq
  refine ⟨h, by rw [h]; rfl, by rw [h]; rfl, by rw [h]; rfl, ?_⟩
  have hshift : (fun i => env (before.length + (i + 1))) =
      (fun i => env (before.length + 1 + i)) := by
    funext i
    rw [Nat.add_assoc, Nat.add_comm 1 i]
  rw [doWork, rangeWork_append, rangeWork]
  simp only [Nat.add_zero, h, hshift]
  simp

/-- Witness of C5: the first of two items cannot be turned into a request; the second one is
still received and fetched. -/
theorem request_construction_failure_witness :
    (0 : Int) ≤ 3 ∧
      doWork 3 1 ([] ++ "https://bad.example" :: ["https://ok.example"])
          (fun i _ => if i = 0 then .reqErr "invalid URL" else .sent (.response 200)) =
        rangeWork 3 1 []
            (fun i _ => if i = 0 then .reqErr "invalid URL" else .sent (.response 200)) ++
          (Event.recv "https://bad.example" ::
            Event.errorCreatingRequest "invalid URL" "https://bad.example" ::
            rangeWork 3 1 ["https://ok.example"]
              (fun i => (fun (i : Nat) (_ : Int) =>
                if i = 0 then Attempt.reqErr "invalid URL" else .sent (.response 200))
                  (([] : List String).length + 1 + i))) ++
          [Event.wgDone] :=
  ⟨by decide,
    (request_construction_failure 3 1 [] ["https://ok.example"] "https://bad.example"
      "invalid URL" (fun i _ => if i = 0 then .reqErr "invalid URL" else .sent (.response 200))
      (by decide) rfl).2.2.2.2⟩

/-- C6, as the claim states it, fails: `-retry -1` is accepted by the flag, and then the retry
loop runs no iteration: the item is received and no report at all is emitted for it. -/
theorem negative_retries_counterexample :
    doWork (-1) 1 ["https://ok.example"] (fun _ _ => .sent (.response 200)) =
        [Event.recv "https://ok.example", Event.wgDone] ∧
      itemTraces (doWork (-1) 1 ["https://ok.example"] (fun _ _ => .sent (.response 200))) =
        [("https://ok.example", [])] ∧
      terminalReports
        (doWork (-1) 1 ["https://ok.example"] (fun _ _ => .sent (.response 200))) = [] := by
  have h : doWork (-1) 1 ["https://ok.example"] (fun _ _ => .sent (.response 200)) =
      [Event.recv "https://ok.example", Event.wgDone] := by
    simp [doWork, rangeWork, retryLoop_exit]
  rw [h]
  decide

/-- C6, amended to `retries ≥ 0`: for every queue handed to one worker and every result of the
library calls, the items the worker trace shows are the items of the queue in queue order, the
events of the `i`-th item are those of the retry loop run on it, every item has at least one
terminal report, and the trace ends with `wg.Done`. -/
theorem every_item_reported (retries retrySleep : Int) (queue : List String)
    (env : Nat → Int → Attempt) (hr : 0 ≤ retries) :
    (itemTraces (doWork retries retrySleep queue env)).map Prod.fst = queue ∧
      (∀ (i : Nat) (h : i < queue.length),
        (itemTraces (doWork retries retrySleep queue env))[i]? =
          some (queue[i], retryLoop retries retrySleep queue[i] (env i) 0)) ∧
      (∀ seg ∈ itemTraces (doWork retries retrySleep queue env), terminalReports seg.2 ≠ []) ∧
      (doWork retries retrySleep queue env).getLast? = some Event.wgDone := by
  rw [itemTraces_doWork]
  exact ⟨itemRuns_map_fst retries retrySleep queue env,
    itemRuns_getElem? retries retrySleep queue env,
    itemRuns_terminal retries retrySleep hr queue env, by simp [doWork]⟩

/-- Witness of C6 amended: `retries = 1`, a queue of a dead URL and a live one. -/
theorem every_item_reported_witness :
    (0 : Int) ≤ 1 ∧
      (itemTraces (doWork 1 0 ["https://dead.example", "https://ok.example"]
        (fun i _ => if i = 0 then .sent (.error "refused") else .sent (.response 200)))).map
          Prod.fst = ["https://dead.example", "https://ok.example"] ∧
      (∀ seg ∈ itemTraces (doWork 1 0 ["https://dead.example", "https://ok.example"]
        (fun i _ => if i = 0 then .sent (.error "refused") else .sent (.response 200))),
          terminalReports seg.2 ≠ []) :=
  ⟨by decide,
    (every_item_reported 1 0 ["https://dead.example", "https://ok.example"]
      (fun i _ => if i = 0 then .sent (.error "refused") else .sent (.response 200))
      (by decide)).1,
    (every_item_reported 1 0 ["https://dead.example", "https://ok.example"]
      (fun i _ => if i = 0 then .sent (.error "refused") else .sent (.response 200))
      (by decide)).2.2.1⟩

/-- C9 (independence, P5): in the trace of a worker, what is emitted for the `i`-th item of the
queue is the trace of the retry loop on that item with that item's own library results, a
function of `retries`, `retrySleep`, the URL and those results only.  Two runs over the same
queue whose library results agree on item `i` (attempts `0, ..., retries`) and differ in any way
on the other items emit the same events for item `i`: the same reports and the same number of
transport calls. -/
theorem independence (retries retrySleep : Int) (queue : List String)
    (env env' : Nat → Int → Attempt) (i : Nat) (hi : i < queue.length)
    (hagree : ∀ a : Int, 0 ≤ a → a ≤ retries → env i a = env' i a) :
    (itemTraces (doWork retries retrySleep queue env))[i]? =
        some (queue[i], retryLoop retries retrySleep queue[i] (env i) 0) ∧
      (itemTraces (doWork retries retrySleep queue env'))[i]? =
        (itemTraces (doWork retries retrySleep queue env))[i]? ∧
      ((itemTraces (doWork retries retrySleep queue env'))[i]?.map
          (fun seg => (terminalReports seg.2, transportCalls seg.2)) =
        (itemTraces (doWork retries retrySleep queue env))[i]?.map
          (fun seg => (terminalReports seg.2, transportCalls seg.2))) := by
  rw [itemTraces_doWork, itemTraces_doWork, itemRuns_getElem? retries retrySleep queue env i hi,
    itemRuns_getElem? retries retrySleep queue env' i hi,
    retryLoop_congr retries retrySleep queue[i] (env i) (env' i) 0 hagree]
  exact ⟨rfl, rfl, rfl⟩

/-- Witness of C9: `https://ok.example` is second in the queue; whether the first URL answers
or fails on every attempt, the events for `https://ok.example` are the same. -/
theorem independence_witness :
    (1 < ["https://other.example", "https://ok.example"].length) ∧
      (itemTraces (doWork 2 0 ["https://other.example", "https://ok.example"]
        (fun i _ => if i = 0 then .sent (.error "refused") else .sent (.response 200))))[1]? =
      (itemTraces (doWork 2 0 ["https://other.example", "https://ok.example"]
        (fun _ _ => .sent (.response 200))))[1]? :=
  ⟨by decide,
    (independence 2 0 ["https://other.example", "https://ok.example"]
      (fun _ _ => .sent (.response 200))
      (fun i _ => if i = 0 then .sent (.error "refused") else .sent (.response 200))
      1 (by decide) (fun _ _ _ => rfl)).2.1⟩

/-! ## The producer -/

theorem sentURLs_append (s t : List ProducerEvent) :
    sentURLs (s ++ t) = sentURLs s ++ sentURLs t := by
  induction s with
  | nil => rfl
  | cons e es ih => cases e <;> simp [sentURLs, ih]

theorem invalidMessages_append (s t : List ProducerEvent) :
    invalidMessages (s ++ t) = invalidMessages s ++ invalidMessages t := by
  induction s with
  | nil => rfl
  | cons e es ih => cases e <;> simp [invalidMessages, ih]

theorem scanLoop_run (concurrency : Int) (parseRequestURI : String → Bool)
    (hc : 0 < concurrency) (lines : List String) :
    ∀ urlCount : Nat,
      (scanLoop concurrency parseRequestURI lines urlCount).events =
          (lines.map (lineEvents parseRequestURI)).flatten ++ [ProducerEvent.prompt] ∧
        (scanLoop concurrency parseRequestURI lines urlCount).blocked = false ∧
        (scanLoop concurrency parseRequestURI lines urlCount).urlCount =
          urlCount +
            (sentURLs (scanLoop concurrency parseRequestURI lines urlCount).events).length := by
  have hw : ¬ workersStarted concurrency = 0 := by
    unfold workersStarted
    omega
  induction lines with
  | nil => intro c; exact ⟨rfl, rfl, rfl⟩
  | cons l more ih =>
    intro c
    by_cases h1 : l = ""
    · obtain ⟨he, hb, hu⟩ := ih c
      refine ⟨?_, ?_, ?_⟩
      · simp [scanLoop, ScanRun.after, lineEvents, h1, he]
      · simp [scanLoop, ScanRun.after, h1, hb]
      · simp only [scanLoop, ScanRun.after, h1, if_true, List.singleton_append, sentURLs]
        exact hu
    · by_cases h2 : parseRequestURI l = true
      · obtain ⟨he, hb, hu⟩ := ih (c + 1)
        refine ⟨?_, ?_, ?_⟩
        · simp [scanLoop, ScanRun.after, lineEvents, h1, h2, hw, he]
        · simp [scanLoop, ScanRun.after, h1, h2, hw, hb]
        · simp [scanLoop, ScanRun.after, h1, h2, hw, sentURLs]
          omega
      · obtain ⟨he, hb, hu⟩ := ih c
        refine ⟨?_, ?_, ?_⟩
        · simp [scanLoop, ScanRun.after, lineEvents, h1, h2, he]
        · simp [scanLoop, ScanRun.after, h1, h2, hb]
        · simp [scanLoop, ScanRun.after, h1, h2, sentURLs]
          omega

theorem sentURLs_lines (parseRequestURI : String → Bool) (lines : List String) :
    sentURLs (lines.map (lineEvents parseRequestURI)).flatten =
      lines.filter (fun l => decide (l ≠ "") && parseRequestURI l) := by
  induction lines with
  | nil => rfl
  | cons l more ih =>
    rw [List.map_cons, List.flatten_cons, sentURLs_append, ih]
    by_cases h1 : l = ""
    · simp [lineEvents, h1, sentURLs]
    · by_cases h2 : parseRequestURI l = true
      · simp [lineEvents, h1, h2, sentURLs]
      · simp [lineEvents, h1, h2, sentURLs]

theorem invalidMessages_lines (parseRequestURI : String → Bool) (lines : List String) :
    invalidMessages (lines.map (lineEvents parseRequestURI)).flatten =
      lines.filter (fun l => decide (l ≠ "") && !parseRequestURI l) := by
  induction lines with
  | nil => rfl
  | cons l more ih =>
    rw [List.map_cons, List.flatten_cons, invalidMessages_append, ih]
    by_cases h1 : l = ""
    · simp [lineEvents, h1, invalidMessages]
    · by_cases h2 : parseRequestURI l = true
      · simp [lineEvents, h1, h2, invalidMessages]
      · simp [lineEvents, h1, h2, invalidMessages]

theorem closes_lines (parseRequestURI : String → Bool) (lines : List String) :
    closes (lines.map (lineEvents parseRequestURI)).flatten = 0 := by
  induction lines with
  | nil => rfl
  | cons l more ih =>
    unfold closes at ih ⊢
    rw [List.map_cons, List.flatten_cons, List.count_append, ih]
    by_cases h1 : l = ""
    · simp [lineEvents, h1]
    · by_cases h2 : parseRequestURI l = true
      · simp [lineEvents, h1, h2]
      · simp [lineEvents, h1, h2]

/-- C10, as the claim states it, fails: with `-t 0` no `doWork` goroutine is started, so
nothing is ever received from the unbuffered channel.  On the one accepted line
`https://ok.example` the producer blocks for ever in `work <- urlText`: no string is sent
although the line is non-empty and accepted, `urlCount` stays 0 and `close(work)` is never
reached. -/
theorem producer_no_worker_counterexample :
    producer 0 (fun _ => true) ["https://ok.example"] none =
        ([ProducerEvent.prompt, ProducerEvent.blockedSend "https://ok.example"], 0) ∧
      sentURLs (producer 0 (fun _ => true) ["https://ok.example"] none).1 = [] ∧
      ["https://ok.example"].filter (fun l => decide (l ≠ "") && (fun _ => true) l) =
        ["https://ok.example"] ∧
      closes (producer 0 (fun _ => true) ["https://ok.example"] none).1 = 0 := by
  decide

/-- C10 (producer filter), amended to a worker count `-t` of at least 1: then, for every list
of input lines and every end of the scanner (end of input or error), the producer emits, line
by line, the prompt followed by nothing for an empty line, by the `Invalid URL` message for a
non-empty line that `url.ParseRequestURI` rejects, and by the send for a line it accepts; then
the last prompt, the log line if the scanner ended with an error, and `close(work)`.  So the
strings sent are the non-empty accepted lines in input order and with multiplicity, the
`Invalid URL` messages are the non-empty rejected lines, `urlCount` ends as the number of
sends, and the channel is closed once, as the last action. -/
theorem producer_filter (concurrency : Int) (parseRequestURI : String → Bool)
    (lines : List String) (scanErr : Option String) (hc : 0 < concurrency) :
    (producer concurrency parseRequestURI lines scanErr).1 =
        (lines.map (lineEvents parseRequestURI)).flatten ++ [ProducerEvent.prompt] ++
          afterScan scanErr ∧
      sentURLs (producer concurrency parseRequestURI lines scanErr).1 =
        lines.filter (fun l => decide (l ≠ "") && parseRequestURI l) ∧
      invalidMessages (producer concurrency parseRequestURI lines scanErr).1 =
        lines.filter (fun l => decide (l ≠ "") && !parseRequestURI l) ∧
      (producer concurrency parseRequestURI lines scanErr).2 =
        (sentURLs (producer concurrency parseRequestURI lines scanErr).1).length ∧
      closes (producer concurrency parseRequestURI lines scanErr).1 = 1 ∧
      (producer concurrency parseRequestURI lines scanErr).1.getLast? =
        some ProducerEvent.close := by
  obtain ⟨he, hb, hu⟩ := scanLoop_run concurrency parseRequestURI hc lines 0
  have hp : producer concurrency parseRequestURI lines scanErr =
      ((scanLoop concurrency parseRequestURI lines 0).events ++ afterScan scanErr,
        (scanLoop concurrency parseRequestURI lines 0).urlCount) := by
    simp [producer, hb]
  have hev : (producer concurrency parseRequestURI lines scanErr).1 =
      (lines.map (lineEvents parseRequestURI)).flatten ++ [ProducerEvent.prompt] ++
        afterScan scanErr := by
    rw [hp, he]
  have hsent : sentURLs (producer concurrency parseRequestURI lines scanErr).1 =
      lines.filter (fun l => decide (l ≠ "") && parseRequestURI l) := by
    rw [hev, sentURLs_append, sentURLs_append, sentURLs_lines]
    cases scanErr <;> simp [afterScan, sentURLs]
  refine ⟨hev, hsent, ?_, ?_, ?_, ?_⟩
  · rw [hev, invalidMessages_append, invalidMessages_append, invalidMessages_lines]
    cases scanErr <;> simp [afterScan, invalidMessages]
  · have h2 : sentURLs (producer concurrency parseRequestURI lines scanErr).1 =
        sentURLs (scanLoop concurrency parseRequestURI lines 0).events := by
      rw [hp]
      show sentURLs (_ ++ _) = _
      rw [sentURLs_append]
      cases scanErr <;> simp [afterScan, sentURLs]
    rw [h2, hp]
    simpa using hu
  · rw [hev]
    have h := closes_lines parseRequestURI lines
    unfold closes at h ⊢
    rw [List.count_append, List.count_append, h]
    cases scanErr <;> simp [afterScan]
  · rw [hev]
    cases scanErr <;> simp [afterScan]

/-- Witness of C10 amended: `-t 8`, an empty line, a rejected line and an accepted one, and a
scanner that ends with an error: one send, one `Invalid URL` message, `urlCount = 1`, one
`close`. -/
theorem producer_filter_witness :
    (0 : Int) < 8 ∧
      producer 8 (fun l => decide (l ≠ "not a url")) ["", "not a url", "https://ok.example"]
          (some "read error") =
        ([ProducerEvent.prompt,
          ProducerEvent.prompt, ProducerEvent.invalidURL "not a url",
          ProducerEvent.prompt, ProducerEvent.send "https://ok.example",
          ProducerEvent.prompt, ProducerEvent.readError "read error", ProducerEvent.close], 1) ∧
      sentURLs (producer 8 (fun l => decide (l ≠ "not a url"))
        ["", "not a url", "https://ok.example"] (some "read error")).1 =
        ["", "not a url", "https://ok.example"].filter
          (fun l => decide (l ≠ "") && (fun l => decide (l ≠ "not a url")) l) ∧
      closes (producer 8 (fun l => decide (l ≠ "not a url"))
        ["", "not a url", "https://ok.example"] (some "read error")).1 = 1 :=
  ⟨by decide, by decide,
    (producer_filter 8 (fun l => decide (l ≠ "not a url"))
      ["", "not a url", "https://ok.example"] (some "read error") (by decide)).2.1,
    (producer_filter 8 (fun l => decide (l ≠ "not a url"))
      ["", "not a url", "https://ok.example"] (some "read error") (by decide)).2.2.2.2.1⟩

end URLStatusChecker
